import Mathlib

/-!
Verification development for the MASK-IMAGE editor.

The TypeScript source is shallowly embedded below.  JavaScript numbers are
modelled as real numbers; canvas 2D-context calls are modelled as an explicit
command list; React state updates are modelled as pure state-transition
functions.  Each definition is translated directly from the corresponding
source function (file and symbol noted in the comments).
-/

noncomputable section

namespace MaskImage

/-- A 2D point, source interface Point (types.ts). -/
structure Pt where
  x : ℝ
  y : ℝ

/-- The camera transform, source interface Transform (App):
screen = world * scale + translate. -/
structure Transform where
  x : ℝ
  y : ℝ
  scale : ℝ

/-- Source enum MaskType (types.ts). -/
inductive MaskType where
  | NONE
  | HAND
  | CIRCLE
  | RECTANGLE
  | HEART
  | STAR
  | TEXT
  | SPLIT
  | FILMSTRIP
  | BRUSH
  | PEN
deriving DecidableEq

/-- Source interface MaskConfig (types.ts). -/
structure MaskConfig where
  type : MaskType
  shape : MaskType
  x : ℝ
  y : ℝ
  scale : ℝ
  rotation : ℝ
  text : String
  fontSize : ℝ
  brushPoints : List (List Pt)
  brushSize : ℝ
  opacity : ℝ

/-- Source constant DEFAULT_MASK_CONFIG (types.ts). -/
def DEFAULT_MASK_CONFIG : MaskConfig :=
  { type := MaskType.CIRCLE
    shape := MaskType.CIRCLE
    x := 0.5
    y := 0.5
    scale := 0.4
    rotation := 0
    text := "MASK"
    fontSize := 100
    brushPoints := []
    brushSize := 20
    opacity := 1 }

/-! ## History stack (App: past / future state, saveHistory, undo, redo) -/

/-- The App history state: the past list, the live maskConfig, the future list. -/
structure HistState where
  past : List MaskConfig
  config : MaskConfig
  future : List MaskConfig

/-- Source saveHistory (App): push current config on past, clear future. -/
def saveHistory (s : HistState) : HistState :=
  { past := s.past ++ [s.config], config := s.config, future := [] }

/-- Source undo (App): no-op on empty past, else pop the last past entry into
the live config and push the pre-undo config on the front of future. -/
def undo (s : HistState) : HistState :=
  match s.past.getLast? with
  | none => s
  | some previous =>
      { past := s.past.dropLast, config := previous, future := s.config :: s.future }

/-- Source redo (App): no-op on empty future, else move the front of future
into the live config and push the pre-redo config onto past. -/
def redo (s : HistState) : HistState :=
  match s.future with
  | [] => s
  | next :: rest =>
      { past := s.past ++ [s.config], config := next, future := rest }

/-! ## Toolbar onSelectMask callback (App, JSX around lines 718-734) -/

/-- Source: the onSelectMask callback passed to the Toolbar (config part;
the callback also calls saveHistory first, modelled separately). -/
def selectMask (ty : MaskType) (c : MaskConfig) : MaskConfig :=
  let isBrushTool := ty = MaskType.BRUSH ∨ ty = MaskType.PEN
  let isHandTool := ty = MaskType.HAND
  { c with
    type := ty
    shape := if isHandTool then c.shape else (if isBrushTool then MaskType.NONE else ty)
    brushPoints := if isHandTool then c.brushPoints else []
    x := if isHandTool then c.x else 0.5
    y := if isHandTool then c.y else 0.5
    scale := if isHandTool then c.scale else DEFAULT_MASK_CONFIG.scale
    rotation := if isHandTool then c.rotation else 0 }

/-! ## Viewport / gesture engine (App) -/

/-- JavaScript Math.sign on reals. -/
def jsSign (x : ℝ) : ℝ :=
  if x < 0 then -1 else if 0 < x then 1 else 0

/-- Source constant ZOOM_SPEED in handleWheel. -/
def ZOOM_SPEED : ℝ := 0.15

/-- Result of getCentroid: the centroid and the mean radial distance. -/
structure Centroid where
  center : Pt
  distance : ℝ

/-- Source getCentroid (App): centroid of the points and, when more than one
point is present, the mean of the distances (Math.hypot) to the centroid. -/
def getCentroid (points : List Pt) : Centroid :=
  let n : ℝ := points.length
  let cx := (points.map (fun p => p.x)).sum / n
  let cy := (points.map (fun p => p.y)).sum / n
  let distance :=
    if 1 < points.length then
      (points.map (fun p => Real.sqrt ((p.x - cx) ^ 2 + (p.y - cy) ^ 2))).sum / n
    else 0
  { center := { x := cx, y := cy }, distance := distance }

/-- The gesture baseline stored in gestureStartRef. -/
structure Gesture where
  transform : Transform
  center : Pt
  distance : ℝ

/-- The pointer map pointersRef: insertion-ordered map from pointerId to its
last known client position (JavaScript Map). -/
abbrev PtrMap : Type := List (ℕ × Pt)

/-- Map.has. -/
def hasPtr (m : PtrMap) (id : ℕ) : Bool :=
  m.any (fun e => e.1 == id)

/-- Map.set: update in place when the key is present (JS Map keeps the
insertion position), else append. -/
def setPtr (m : PtrMap) (id : ℕ) (p : Pt) : PtrMap :=
  if hasPtr m id then m.map (fun e => if e.1 == id then (id, p) else e)
  else m ++ [(id, p)]

/-- Map.delete. -/
def delPtr (m : PtrMap) (id : ℕ) : PtrMap :=
  m.filter (fun e => ¬ e.1 == id)

/-- Array.from(map.values()). -/
def ptrValues (m : PtrMap) : List Pt :=
  m.map Prod.snd

/-- Source updateGestureStart (App): clear the baseline when no pointer is
active, else recompute it from scratch from the active pointers and the
current transform. -/
def updateGestureStart (pointers : PtrMap) (t : Transform) : Option Gesture :=
  if pointers.length = 0 then none
  else
    let c := getCentroid (ptrValues pointers)
    some { transform := t, center := c.center, distance := c.distance }

/-- Source centerImage (App): fit-to-screen with fixed chrome paddings;
winW / winH model window.innerWidth / window.innerHeight. -/
def centerImage (winW winH width height : ℝ) : Transform :=
  let paddingX : ℝ := 48
  let paddingY : ℝ := 140
  let availableWidth := winW - paddingX
  let availableHeight := winH - paddingY
  let scaleX := availableWidth / width
  let scaleY := availableHeight / height
  let fitScale := min scaleX (min scaleY 1)
  { x := (winW - width * fitScale) / 2
    y := (winH - height * fitScale) / 2
    scale := fitScale }

/-- Source handleWheel (App): exp-based zoom about the pointer position.
rectLeft / rectTop model the viewport's getBoundingClientRect offsets;
the early returns for isGenerating / showGenModal (which leave the
transform unchanged) are omitted. -/
def handleWheel (rectLeft rectTop clientX clientY deltaY : ℝ) (t : Transform) : Transform :=
  let delta := -jsSign deltaY
  let multiplier := Real.exp (delta * ZOOM_SPEED)
  let currentScale := t.scale
  let newScale := min (max (currentScale * multiplier) 0.05) 20
  let mouseX := clientX - rectLeft
  let mouseY := clientY - rectTop
  let worldX := (mouseX - t.x) / currentScale
  let worldY := (mouseY - t.y) / currentScale
  { x := mouseX - worldX * newScale, y := mouseY - worldY * newScale, scale := newScale }

/-- Environment read by the App handlers: the viewport bounding rect offset
and the window dimensions. -/
structure Env where
  rectLeft : ℝ
  rectTop : ℝ
  winW : ℝ
  winH : ℝ

/-- The App viewport state touched by the pointer handlers. -/
structure VState where
  pointers : PtrMap
  gestureStart : Option Gesture
  transform : Transform
  lastTap : ℝ
  maskType : MaskType
  canvasW : ℝ
  canvasH : ℝ

/-- Source handlePointerDown (App): record the pointer, recompute the gesture
baseline, then run the double-tap logic (300 ms window; zoom to 100% at the
tap when scale < 1, else fit-to-screen). -/
def handlePointerDown (env : Env) (now : ℝ) (pid : ℕ) (clientX clientY : ℝ)
    (s : VState) : VState :=
  let pointers := setPtr s.pointers pid { x := clientX, y := clientY }
  let gesture := updateGestureStart pointers s.transform
  if pointers.length = 1 then
    let t :=
      if now - s.lastTap < 300 then
        if s.transform.scale < 1 then
          let x := clientX - env.rectLeft
          let y := clientY - env.rectTop
          let wx := (x - s.transform.x) / s.transform.scale
          let wy := (y - s.transform.y) / s.transform.scale
          Transform.mk (x - wx) (y - wy) 1
        else centerImage env.winW env.winH s.canvasW s.canvasH
      else s.transform
    { s with pointers := pointers, gestureStart := gesture, transform := t, lastTap := now }
  else
    { s with pointers := pointers, gestureStart := gesture }

/-- Source handlePointerMove (App): update the pointer, then pan/pinch from
the gesture baseline; a single pointer pans only in HAND mode. -/
def handlePointerMove (env : Env) (pid : ℕ) (clientX clientY : ℝ)
    (s : VState) : VState :=
  if hasPtr s.pointers pid then
    let pointers := setPtr s.pointers pid { x := clientX, y := clientY }
    match s.gestureStart with
    | none => { s with pointers := pointers }
    | some g =>
        if pointers.length = 1 ∧ s.maskType ≠ MaskType.HAND then
          { s with pointers := pointers }
        else
          let current := getCentroid (ptrValues pointers)
          let newScale1 :=
            if 1 < pointers.length ∧ 0 < g.distance then
              g.transform.scale * (current.distance / g.distance)
            else g.transform.scale
          let newScale := min (max newScale1 0.05) 20
          let scX := g.center.x - env.rectLeft
          let scY := g.center.y - env.rectTop
          let ccX := current.center.x - env.rectLeft
          let ccY := current.center.y - env.rectTop
          let worldX := (scX - g.transform.x) / g.transform.scale
          let worldY := (scY - g.transform.y) / g.transform.scale
          { s with pointers := pointers
                   transform := Transform.mk (ccX - worldX * newScale) (ccY - worldY * newScale) newScale }
  else s

/-- Source handlePointerUp (also wired to pointercancel and pointerleave):
delete the pointer, recompute the gesture baseline. -/
def handlePointerUp (pid : ℕ) (s : VState) : VState :=
  let pointers := delPtr s.pointers pid
  { s with pointers := pointers, gestureStart := updateGestureStart pointers s.transform }

/-- Source handleZoomIn (App). -/
def handleZoomIn (t : Transform) : Transform :=
  { t with scale := min (t.scale * 1.25) 20 }

/-- Source handleZoomOut (App). -/
def handleZoomOut (t : Transform) : Transform :=
  { t with scale := max (t.scale * 0.8) 0.05 }

/-- Source handleCenterView (App): recompute the translate only. -/
def handleCenterView (winW winH canvasW canvasH : ℝ) (t : Transform) : Transform :=
  { t with
    x := (winW - canvasW * t.scale) / 2
    y := (winH - canvasH * t.scale) / 2 }

/-! ## Upscale path (App handleUpscaleLayer, target = 1, successful result) -/

/-- Source handleUpscaleLayer (App), the setMaskConfig updater applied when a
foreground upscale succeeds with size ratio r = newImg.width / img.width. -/
def upscaleMaskConfig (r : ℝ) (c : MaskConfig) : MaskConfig :=
  { c with
    fontSize := c.fontSize * r
    brushSize := c.brushSize * r
    brushPoints := c.brushPoints.map (fun stroke =>
      stroke.map (fun p => Pt.mk (p.x * r) (p.y * r))) }

/-- Source handleUpscaleLayer (App), the setTransform updater. -/
def upscaleTransform (r : ℝ) (t : Transform) : Transform :=
  { t with scale := t.scale / r }

/-! ## CanvasLayer drawing path (components/CanvasLayer.tsx handlePointerDown) -/

/-- The CanvasLayer drag state (isDragging, lastPos). -/
structure DrawState where
  isDragging : Bool
  lastPos : Pt

/-- Source CanvasLayer handlePointerDown: HAND tool and non-primary pointers
are ignored; otherwise a history checkpoint is recorded (onHistorySave is the
App's saveHistory, which captures the pre-mutation config), the drag begins at
pos, and for BRUSH/PEN a new stroke [pos] is appended to brushPoints.
pos models getPos(e), the pointer position converted to canvas pixels. -/
def canvasPointerDown (isPrimary : Bool) (pos : Pt) (s : HistState) (d : DrawState) :
    HistState × DrawState :=
  if s.config.type = MaskType.HAND then (s, d)
  else if ¬ isPrimary then (s, d)
  else
    let s1 := saveHistory s
    let d1 : DrawState := { isDragging := true, lastPos := pos }
    if s1.config.type = MaskType.BRUSH ∨ s1.config.type = MaskType.PEN then
      ({ s1 with config := { s1.config with brushPoints := s1.config.brushPoints ++ [[pos]] } }, d1)
    else (s1, d1)

/-! ## Shape rasterizer (utils/drawUtils.ts), embedded as a canvas command list -/

/-- One 2D-context call.  setFont carries the pixel size of the source's
CSS font string built from fontSize. -/
inductive CanvasOp where
  | setFillStyle (c : String)
  | setStrokeStyle (c : String)
  | setLineCap (s : String)
  | setLineJoin (s : String)
  | setLineWidth (w : ℝ)
  | setFont (sizePx : ℝ)
  | setTextAlign (s : String)
  | setTextBaseline (s : String)
  | beginPath
  | moveTo (x y : ℝ)
  | lineTo (x y : ℝ)
  | arc (x y radius startAngle endAngle : ℝ)
  | bezierCurveTo (c1x c1y c2x c2y x y : ℝ)
  | rect (x y w h : ℝ)
  | closePath
  | fill
  | stroke
  | fillRect (x y w h : ℝ)
  | fillText (t : String) (x y : ℝ)
  | save
  | restore
  | translate (x y : ℝ)
  | rotate (angle : ℝ)
  | scaleOp (sx sy : ℝ)

/-- The for-loop of drawStar: each iteration emits the outer and inner
vertex, advancing rot by step twice. -/
def drawStarLoop : ℕ → ℝ → ℝ → ℝ → ℝ → ℝ → ℝ → List CanvasOp
  | 0, _, _, _, _, _, _ => []
  | n + 1, rot, cx, cy, outerRadius, innerRadius, step =>
      let x1 := cx + Real.cos rot * outerRadius
      let y1 := cy + Real.sin rot * outerRadius
      let rot1 := rot + step
      let x2 := cx + Real.cos rot1 * innerRadius
      let y2 := cy + Real.sin rot1 * innerRadius
      CanvasOp.lineTo x1 y1 :: CanvasOp.lineTo x2 y2 ::
        drawStarLoop n (rot1 + step) cx cy outerRadius innerRadius step

/-- Source drawStar (drawUtils.ts). -/
def drawStar (cx cy : ℝ) (spikes : ℕ) (outerRadius innerRadius : ℝ) : List CanvasOp :=
  let rot := (Real.pi / 2) * 3
  let step := Real.pi / spikes
  CanvasOp.beginPath :: CanvasOp.moveTo cx (cy - outerRadius) ::
    (drawStarLoop spikes rot cx cy outerRadius innerRadius step ++
      [CanvasOp.lineTo cx (cy - outerRadius), CanvasOp.closePath, CanvasOp.fill])

/-- Source drawHeart (drawUtils.ts). -/
def drawHeart (x y width height : ℝ) : List CanvasOp :=
  let topCurveHeight := height * 0.3
  [CanvasOp.beginPath,
   CanvasOp.moveTo x (y + topCurveHeight),
   CanvasOp.bezierCurveTo x y (x - width / 2) y (x - width / 2) (y + topCurveHeight),
   CanvasOp.bezierCurveTo (x - width / 2) (y + (height + topCurveHeight) / 2)
     x (y + (height + topCurveHeight) / 2) x (y + height),
   CanvasOp.bezierCurveTo x (y + (height + topCurveHeight) / 2)
     (x + width / 2) (y + (height + topCurveHeight) / 2) (x + width / 2) (y + topCurveHeight),
   CanvasOp.bezierCurveTo (x + width / 2) y x y x (y + topCurveHeight),
   CanvasOp.closePath, CanvasOp.fill]

/-- Source drawFilmstrip (drawUtils.ts): three frame rects plus two columns of
sprocket-hole rects, all filled as one path. -/
def drawFilmstrip (width height : ℝ) : List CanvasOp :=
  let frameWidth := width * 0.8
  let frameHeight := height * 0.25
  let gap := height * 0.05
  let startY := (height - (frameHeight * 3 + gap * 2)) / 2
  let holeSize : ℝ := 10
  let holesPerSide : ℕ := 8
  let holeGap := height / holesPerSide
  CanvasOp.beginPath ::
    CanvasOp.rect ((width - frameWidth) / 2) startY frameWidth frameHeight ::
    CanvasOp.rect ((width - frameWidth) / 2) (startY + frameHeight + gap) frameWidth frameHeight ::
    CanvasOp.rect ((width - frameWidth) / 2) (startY + (frameHeight + gap) * 2) frameWidth frameHeight ::
    ((List.range holesPerSide).flatMap (fun i =>
      [CanvasOp.rect 10 ((i : ℝ) * holeGap + 10) holeSize holeSize,
       CanvasOp.rect (width - 10 - holeSize) ((i : ℝ) * holeGap + 10) holeSize holeSize]) ++
     [CanvasOp.fill])

/-- The body of the brushPoints.forEach loop in drawMaskShape: a stroke with
fewer than 1 point is skipped, otherwise it becomes a polyline. -/
def strokeOps (stroke : List Pt) : List CanvasOp :=
  match stroke with
  | [] => []
  | p :: rest =>
      CanvasOp.beginPath :: CanvasOp.moveTo p.x p.y ::
        (rest.map (fun q => CanvasOp.lineTo q.x q.y) ++ [CanvasOp.stroke])

/-- Source drawMaskShape (drawUtils.ts). -/
def drawMaskShape (ty : MaskType) (width height : ℝ) (text : String) (fontSize : ℝ)
    (brushPoints : List (List Pt)) (brushSize : ℝ) : List CanvasOp :=
  let cx := width / 2
  let cy := height / 2
  let minDim := min width height
  [CanvasOp.setFillStyle "#FFFFFF", CanvasOp.setStrokeStyle "#FFFFFF",
   CanvasOp.setLineCap "round", CanvasOp.setLineJoin "round"] ++
  match ty with
  | MaskType.NONE | MaskType.HAND => []
  | MaskType.CIRCLE =>
      [CanvasOp.beginPath, CanvasOp.arc cx cy (minDim / 2) 0 (Real.pi * 2), CanvasOp.fill]
  | MaskType.RECTANGLE => [CanvasOp.fillRect 0 0 width height]
  | MaskType.SPLIT =>
      [CanvasOp.beginPath, CanvasOp.moveTo 0 0, CanvasOp.lineTo width 0,
       CanvasOp.lineTo 0 height, CanvasOp.closePath, CanvasOp.fill]
  | MaskType.STAR => drawStar cx cy 5 (minDim / 2) (minDim / 4)
  | MaskType.HEART => drawHeart cx (cy - minDim / 2) minDim minDim
  | MaskType.TEXT =>
      [CanvasOp.setFont fontSize, CanvasOp.setTextAlign "center",
       CanvasOp.setTextBaseline "middle", CanvasOp.fillText text cx cy]
  | MaskType.FILMSTRIP => drawFilmstrip width height
  | MaskType.BRUSH | MaskType.PEN =>
      let size := if ty = MaskType.PEN then 4 else brushSize
      CanvasOp.setLineWidth size :: brushPoints.flatMap strokeOps

/-- The ctx.lineWidth value assigned by a command, if any. -/
def widthOf : CanvasOp → Option ℝ :=
  fun op => match op with | CanvasOp.setLineWidth w => some w | _ => none

/-- The ctx.lineWidth values assigned by a command list, in order. -/
def lineWidthsOf (ops : List CanvasOp) : List ℝ :=
  ops.filterMap widthOf

/-- Whether a command is a ctx.stroke() call. -/
def isStrokeCmd : CanvasOp → Bool :=
  fun op => match op with | CanvasOp.stroke => true | _ => false

/-- The number of ctx.stroke() calls in a command list. -/
def strokeCmdCount (ops : List CanvasOp) : ℕ :=
  ops.countP isStrokeCmd

/-! ## Compositor (components/CanvasLayer.tsx, the main rendering useEffect)

Pixels are premultiplied RGBA over the reals; a canvas of dimensions w x h is a
buffer giving each pixel coordinate a colour.  Image sampling is modelled as
nearest-neighbour; the rasterization of a command list (the browser's path
filling / stroking) is an external semantics and is passed in as a function
from a command list to a per-pixel alpha coverage. -/

/-- A premultiplied RGBA colour. -/
structure Pix where
  r : ℝ
  g : ℝ
  b : ℝ
  a : ℝ

/-- A canvas pixel buffer. -/
abbrev Buffer : Type := ℕ → ℕ → Pix

/-- Fully transparent black: the state of a cleared / freshly created canvas. -/
def clearPix : Pix := { r := 0, g := 0, b := 0, a := 0 }

/-- Source-over compositing of s onto d (premultiplied alpha). -/
def srcOver (s d : Pix) : Pix :=
  { r := s.r + d.r * (1 - s.a)
    g := s.g + d.g * (1 - s.a)
    b := s.b + d.b * (1 - s.a)
    a := s.a + d.a * (1 - s.a) }

/-- Multiply a premultiplied colour by a scalar alpha: used both for
globalCompositeOperation destination-in (multiply by the mask alpha) and for
globalAlpha (multiply the source by opacity). -/
def mulPix (m : ℝ) (p : Pix) : Pix :=
  { r := p.r * m, g := p.g * m, b := p.b * m, a := p.a * m }

/-- Checkerboard colour slate-800 (fill 0x1e293b). -/
def slate800 : Pix := { r := 30 / 255, g := 41 / 255, b := 59 / 255, a := 1 }

/-- Checkerboard colour slate-700 (fill 0x334155). -/
def slate700 : Pix := { r := 51 / 255, g := 65 / 255, b := 85 / 255, a := 1 }

/-- A decoded image: dimensions and pixel data. -/
structure Img where
  width : ℕ
  height : ℕ
  pix : ℕ → ℕ → Pix

/-- The scale-to-cover drawImage used for both images:
scale = max(width/imgW, height/imgH), centered; sampled nearest-neighbour,
transparent outside the source image. -/
def sampleCover (w h : ℕ) (img : Img) (x y : ℕ) : Pix :=
  let scale : ℝ := max ((w : ℝ) / img.width) ((h : ℝ) / img.height)
  let dx : ℝ := (w : ℝ) / 2 - ((img.width : ℝ) / 2) * scale
  let dy : ℝ := (h : ℝ) / 2 - ((img.height : ℝ) / 2) * scale
  let sx : ℝ := ((x : ℝ) - dx) / scale
  let sy : ℝ := ((y : ℝ) - dy) / scale
  if 0 ≤ sx ∧ sx < img.width ∧ 0 ≤ sy ∧ sy < img.height then
    img.pix (Int.toNat ⌊sx⌋) (Int.toNat ⌊sy⌋)
  else clearPix

/-- ctx.clearRect(0, 0, w, h) on the main canvas. -/
def clearRectB (w h : ℕ) (b : Buffer) : Buffer :=
  fun x y => if x < w ∧ y < h then clearPix else b x y

/-- The checkerboard cell parity at a pixel (cellSize 20): the source fills
slate-800 everywhere then slate-700 on cells with even r/20 + c/20. -/
def checkerPix (x y : ℕ) : Pix :=
  if (x / 20 + y / 20) % 2 = 0 then slate700 else slate800

/-- Step 1 of the render effect: background image scale-to-cover, or the
checkerboard when there is none. -/
def drawBg (w h : ℕ) (bg : Option Img) (b : Buffer) : Buffer :=
  match bg with
  | some img => fun x y =>
      if x < w ∧ y < h then srcOver (sampleCover w h img x y) (b x y) else b x y
  | none => fun x y =>
      if x < w ∧ y < h then checkerPix x y else b x y

/-- Step 2A of the render effect: the shape drawn on the fresh mask canvas
under translate(cx,cy) / rotate / scale / translate(-w/2,-h/2).
(maskConfig.shape is always set in the typed model, so the JS fallback
maskConfig.shape || CIRCLE is just maskConfig.shape.) -/
def shapeTransformOps (w h : ℕ) (cfg : MaskConfig) : List CanvasOp :=
  CanvasOp.save ::
    CanvasOp.translate (cfg.x * w) (cfg.y * h) ::
    CanvasOp.rotate (cfg.rotation * Real.pi / 180) ::
    CanvasOp.scaleOp cfg.scale cfg.scale ::
    CanvasOp.translate (-((w : ℝ) / 2)) (-((h : ℝ) / 2)) ::
    (drawMaskShape cfg.shape w h cfg.text cfg.fontSize [] 0 ++ [CanvasOp.restore])

/-- Steps 2A+2B: the full command list drawn on the mask canvas (shape, then
the brush strokes when brushPoints is nonempty). -/
def maskOps (w h : ℕ) (cfg : MaskConfig) : List CanvasOp :=
  shapeTransformOps w h cfg ++
    (if 0 < cfg.brushPoints.length then
      drawMaskShape (if cfg.type = MaskType.PEN then MaskType.PEN else MaskType.BRUSH)
        w h "" 0 cfg.brushPoints cfg.brushSize
    else [])

/-- Step 3: the masked foreground layer, built on a fresh transparent canvas:
draw the foreground scale-to-cover, then destination-in with the mask canvas
(multiply by the rasterized mask alpha). -/
def layerPix (raster : List CanvasOp → ℕ → ℕ → ℝ) (w h : ℕ) (fgImg : Img)
    (cfg : MaskConfig) (x y : ℕ) : Pix :=
  mulPix (raster (maskOps w h cfg) x y) (srcOver (sampleCover w h fgImg x y) clearPix)

/-- The main rendering useEffect of CanvasLayer: clear the main canvas, draw
the background (image or checkerboard), and if a foreground exists composite
the masked foreground layer at globalAlpha = opacity.  prior is the content of
the main canvas left over from the previous render; raster is the browser's
rasterization of a command list to per-pixel alpha coverage. -/
def renderEffect (raster : List CanvasOp → ℕ → ℕ → ℝ) (w h : ℕ)
    (fg bg : Option Img) (cfg : MaskConfig) (prior : Buffer) : Buffer :=
  let bgBuf := drawBg w h bg (clearRectB w h prior)
  match fg with
  | none => bgBuf
  | some fgImg => fun x y =>
      if x < w ∧ y < h then
        srcOver (mulPix cfg.opacity (layerPix raster w h fgImg cfg x y)) (bgBuf x y)
      else bgBuf x y

/-! ## Concrete states used by witnesses -/

/-- Two-pointer viewport state with a positive-distance gesture baseline. -/
def c2State : VState :=
  { pointers := [(1, { x := 0, y := 0 }), (2, { x := 6, y := 8 })]
    gestureStart := some { transform := Transform.mk 0 0 1, center := Pt.mk 3 4, distance := 5 }
    transform := Transform.mk 0 0 1
    lastTap := 0
    maskType := MaskType.CIRCLE
    canvasW := 800
    canvasH := 600 }

/-- Viewport environment with the bounding rect at the origin. -/
def c2Env : Env := { rectLeft := 0, rectTop := 0, winW := 1024, winH := 768 }

/-- Two coincident pointers: a gesture baseline with mean distance zero. -/
def c10State : VState :=
  { pointers := [(1, { x := 3, y := 4 }), (2, { x := 3, y := 4 })]
    gestureStart := some { transform := Transform.mk 0 0 1, center := Pt.mk 3 4, distance := 0 }
    transform := Transform.mk 0 0 1
    lastTap := 0
    maskType := MaskType.CIRCLE
    canvasW := 800
    canvasH := 600 }

/-- Viewport environment for the zero-distance pinch scenario. -/
def c10Env : Env := { rectLeft := 0, rectTop := 0, winW := 1024, winH := 768 }

/-- A history state whose live config has the Brush tool selected. -/
def c7Hist : HistState :=
  { past := []
    config := { DEFAULT_MASK_CONFIG with type := MaskType.BRUSH, shape := MaskType.NONE }
    future := [] }

/-- An idle drag state. -/
def c7Draw : DrawState := { isDragging := false, lastPos := Pt.mk 0 0 }

/-! # Theorems

Helper lemmas first, then one theorem per claim. -/

theorem lineWidthsOf_append (a b : List CanvasOp) :
    lineWidthsOf (a ++ b) = lineWidthsOf a ++ lineWidthsOf b :=
  List.filterMap_append a b widthOf

theorem lineWidthsOf_lineTo_map (l : List Pt) :
    lineWidthsOf (l.map (fun q => CanvasOp.lineTo q.x q.y)) = [] := by
  induction l with
  | nil => rfl
  | cons a t ih => simp [lineWidthsOf, List.filterMap_cons, widthOf]

theorem lineWidthsOf_strokeOps (s : List Pt) : lineWidthsOf (strokeOps s) = [] := by
  cases s with
  | nil => rfl
  | cons p rest =>
      simp [strokeOps, lineWidthsOf, List.filterMap_cons, List.filterMap_append, widthOf]

theorem lineWidthsOf_flatMap_strokeOps (pts : List (List Pt)) :
    lineWidthsOf (pts.flatMap strokeOps) = [] := by
  induction pts with
  | nil => rfl
  | cons s t ih =>
      rw [List.flatMap_cons, lineWidthsOf_append, lineWidthsOf_strokeOps, ih]
      rfl

theorem strokeCmdCount_lineTo_map (l : List Pt) :
    strokeCmdCount (l.map (fun q => CanvasOp.lineTo q.x q.y)) = 0 := by
  induction l with
  | nil => rfl
  | cons a t ih => simp [strokeCmdCount, List.countP_cons, isStrokeCmd]

theorem strokeCmdCount_strokeOps (s : List Pt) :
    strokeCmdCount (strokeOps s) = if 1 ≤ s.length then 1 else 0 := by
  cases s with
  | nil => rfl
  | cons p rest =>
      simp [strokeOps, strokeCmdCount, List.countP_cons, List.countP_append, isStrokeCmd]

theorem strokeCmdCount_append (a b : List CanvasOp) :
    strokeCmdCount (a ++ b) = strokeCmdCount a + strokeCmdCount b :=
  List.countP_append isStrokeCmd a b

theorem strokeCmdCount_flatMap_strokeOps (pts : List (List Pt)) :
    strokeCmdCount (pts.flatMap strokeOps) = pts.countP (fun s => decide (1 ≤ s.length)) := by
  induction pts with
  | nil => rfl
  | cons s t ih =>
      rw [List.flatMap_cons, strokeCmdCount_append, strokeCmdCount_strokeOps, ih,
        List.countP_cons]
      cases s with
      | nil => simp
      | cons p rest => simp [Nat.add_comm]

/-- Claim C4: checkpoint() pushes the current mask configuration onto past and
clears future; undo() with empty past is a no-op, and otherwise pops the last
entry of past into the live configuration while pushing the pre-undo live
configuration onto the front of future; redo() is symmetric; and after
checkpoint() then a mutation A to B, undo() restores A exactly and a
subsequent redo() restores B exactly. -/
theorem history_undo_redo_spec :
    (∀ (p : List MaskConfig) (c : MaskConfig) (f : List MaskConfig),
      saveHistory ⟨p, c, f⟩ = ⟨p ++ [c], c, []⟩) ∧
    (∀ (c : MaskConfig) (f : List MaskConfig), undo ⟨[], c, f⟩ = ⟨[], c, f⟩) ∧
    (∀ (p : List MaskConfig) (c0 c : MaskConfig) (f : List MaskConfig),
      undo ⟨p ++ [c0], c, f⟩ = ⟨p, c0, c :: f⟩) ∧
    (∀ (p : List MaskConfig) (c : MaskConfig), redo ⟨p, c, []⟩ = ⟨p, c, []⟩) ∧
    (∀ (p : List MaskConfig) (c0 c : MaskConfig) (f : List MaskConfig),
      redo ⟨p, c, c0 :: f⟩ = ⟨p ++ [c], c0, f⟩) ∧
    (∀ (p f : List MaskConfig) (A B : MaskConfig),
      (undo { saveHistory ⟨p, A, f⟩ with config := B }).config = A ∧
      (redo (undo { saveHistory ⟨p, A, f⟩ with config := B })).config = B) := by
  refine ⟨fun p c f => rfl, fun c f => rfl, ?_, fun p c => rfl, fun p c0 c f => rfl, ?_⟩
  · intro p c0 c f
    simp [undo, List.getLast?_concat, List.dropLast_concat]
  · intro p f A B
    have h : undo { saveHistory ⟨p, A, f⟩ with config := B } = ⟨p, A, [B]⟩ := by
      simp [saveHistory, undo, List.getLast?_concat, List.dropLast_concat]
    rw [h]
    exact ⟨rfl, rfl⟩

/-- Claim C5, counterexample: switching the interaction mode to Brush does NOT
leave strokes untouched — the source clears brushPoints for every non-Hand
tool selection. -/
theorem selectMask_brush_counterexample :
    (selectMask MaskType.BRUSH
        { DEFAULT_MASK_CONFIG with brushPoints := [[Pt.mk 1 2]] }).brushPoints ≠
      ({ DEFAULT_MASK_CONFIG with brushPoints := [[Pt.mk 1 2]] } : MaskConfig).brushPoints := by
  simp [selectMask]

/-- Claim C5, amended: switching the interaction mode to Brush or Pen sets
shape to None and also clears strokes and resets position to (0.5, 0.5), scale
to the default 0.4 and rotation to 0 (text, fontSize, brushSize and opacity
are untouched); switching to Pan changes only the interaction mode, leaving
shape, position, scale, rotation and strokes unchanged. -/
theorem selectMask_amended :
    ∀ c : MaskConfig,
      selectMask MaskType.BRUSH c =
        { c with type := MaskType.BRUSH, shape := MaskType.NONE, brushPoints := [],
                 x := 0.5, y := 0.5, scale := DEFAULT_MASK_CONFIG.scale, rotation := 0 } ∧
      selectMask MaskType.PEN c =
        { c with type := MaskType.PEN, shape := MaskType.NONE, brushPoints := [],
                 x := 0.5, y := 0.5, scale := DEFAULT_MASK_CONFIG.scale, rotation := 0 } ∧
      selectMask MaskType.HAND c = { c with type := MaskType.HAND } := by
  intro c
  refine ⟨?_, ?_, ?_⟩ <;> simp [selectMask]

/-- Claim C6: a successful foreground upscale with size ratio r multiplies
fontSize and brushSize by exactly r and every coordinate of every stroke point
by exactly r, divides the camera scale by r, and leaves every other
configuration field (and the camera translate) unchanged. -/
theorem upscale_rescale_spec :
    ∀ (r : ℝ) (c : MaskConfig) (t : Transform),
      (upscaleMaskConfig r c).fontSize = c.fontSize * r ∧
      (upscaleMaskConfig r c).brushSize = c.brushSize * r ∧
      (upscaleMaskConfig r c).brushPoints.length = c.brushPoints.length ∧
      (∀ i : ℕ, (upscaleMaskConfig r c).brushPoints[i]? =
        (c.brushPoints[i]?).map (fun stroke =>
          stroke.map (fun p => Pt.mk (p.x * r) (p.y * r)))) ∧
      (upscaleMaskConfig r c).type = c.type ∧
      (upscaleMaskConfig r c).shape = c.shape ∧
      (upscaleMaskConfig r c).x = c.x ∧
      (upscaleMaskConfig r c).y = c.y ∧
      (upscaleMaskConfig r c).scale = c.scale ∧
      (upscaleMaskConfig r c).rotation = c.rotation ∧
      (upscaleMaskConfig r c).text = c.text ∧
      (upscaleMaskConfig r c).opacity = c.opacity ∧
      (upscaleTransform r t).scale = t.scale / r ∧
      (upscaleTransform r t).x = t.x ∧
      (upscaleTransform r t).y = t.y := by
  intro r c t
  refine ⟨rfl, rfl, by simp [upscaleMaskConfig], ?_, rfl, rfl, rfl, rfl, rfl, rfl, rfl,
    rfl, rfl, rfl, rfl⟩
  intro i
  simp [upscaleMaskConfig, List.getElem?_map]

/-- Claim C7, counterexample: at pointer-down with the Brush tool the stroke
appended to brushPoints is not empty — it already contains the pointer's
position. -/
theorem canvasPointerDown_counterexample :
    (canvasPointerDown true (Pt.mk 5 7) c7Hist c7Draw).1.config.brushPoints ≠
      c7Hist.config.brushPoints ++ [[]] := by
  simp [canvasPointerDown, saveHistory, c7Hist, DEFAULT_MASK_CONFIG]

/-- Claim C7, amended: for every pointer-down on the drawing path while the
interaction mode is not Pan and the pointer is primary, a history checkpoint
of the pre-mutation configuration is recorded before any mutation, the drag
begins, and if the mode is Brush or Pen the stroke list grows by exactly one,
the new stroke containing exactly one point: the pointer's position. -/
theorem canvasPointerDown_amended :
    ∀ (pos : Pt) (s : HistState) (d : DrawState),
      s.config.type ≠ MaskType.HAND →
      (canvasPointerDown true pos s d).1.past = s.past ++ [s.config] ∧
      (canvasPointerDown true pos s d).1.future = [] ∧
      (canvasPointerDown true pos s d).2.isDragging = true ∧
      ((s.config.type = MaskType.BRUSH ∨ s.config.type = MaskType.PEN) →
        (canvasPointerDown true pos s d).1.config.brushPoints =
          s.config.brushPoints ++ [[pos]] ∧
        (canvasPointerDown true pos s d).1.config.brushPoints.length =
          s.config.brushPoints.length + 1) := by
  intro pos s d hhand
  by_cases hb : s.config.type = MaskType.BRUSH ∨ s.config.type = MaskType.PEN
  · simp [canvasPointerDown, saveHistory, hhand, hb]
  · simp [canvasPointerDown, saveHistory, hhand, hb]

/-- Claim C7, witness: the amended theorem applied at a Brush-tool state. -/
theorem canvasPointerDown_amended_witness :
    c7Hist.config.type ≠ MaskType.HAND ∧
    (canvasPointerDown true (Pt.mk 5 7) c7Hist c7Draw).1.past =
      c7Hist.past ++ [c7Hist.config] ∧
    (canvasPointerDown true (Pt.mk 5 7) c7Hist c7Draw).1.config.brushPoints =
      c7Hist.config.brushPoints ++ [[Pt.mk 5 7]] := by
  have hh : c7Hist.config.type ≠ MaskType.HAND := by simp [c7Hist]
  have h := canvasPointerDown_amended (Pt.mk 5 7) c7Hist c7Draw hh
  exact ⟨hh, h.1, (h.2.2.2 (Or.inl (by simp [c7Hist]))).1⟩

/-- Claim C8: the stroke rasterizer sets the line width to exactly 4 pixels
when the tool is Pen regardless of the configured brush size, to the
configured brush size when the tool is Brush, and every stroke with fewer
than 1 point is skipped (it contributes no drawing commands, and the number
of ctx.stroke() calls equals the number of strokes with at least one
point). -/
theorem drawMaskShape_linewidth_spec :
    ∀ (w h : ℝ) (text : String) (fs : ℝ) (pts : List (List Pt)) (bs : ℝ),
      lineWidthsOf (drawMaskShape MaskType.PEN w h text fs pts bs) = [4] ∧
      lineWidthsOf (drawMaskShape MaskType.BRUSH w h text fs pts bs) = [bs] ∧
      strokeCmdCount (drawMaskShape MaskType.PEN w h text fs pts bs) =
        pts.countP (fun s => decide (1 ≤ s.length)) ∧
      strokeCmdCount (drawMaskShape MaskType.BRUSH w h text fs pts bs) =
        pts.countP (fun s => decide (1 ≤ s.length)) ∧
      strokeOps [] = [] := by
  intro w h text fs pts bs
  have hw : ∀ (v : ℝ) (rest : List CanvasOp),
      lineWidthsOf (CanvasOp.setLineWidth v :: rest) = v :: lineWidthsOf rest := by
    intro v rest
    simp [lineWidthsOf, List.filterMap_cons, widthOf]
  have hs : ∀ (v : ℝ) (rest : List CanvasOp),
      strokeCmdCount (CanvasOp.setLineWidth v :: rest) = strokeCmdCount rest := by
    intro v rest
    simp [strokeCmdCount, List.countP_cons, isStrokeCmd]
  refine ⟨?_, ?_, ?_, ?_, rfl⟩
  · show lineWidthsOf (_ ++ (CanvasOp.setLineWidth _ :: pts.flatMap strokeOps)) = _
    rw [lineWidthsOf_append, hw, lineWidthsOf_flatMap_strokeOps]
    rfl
  · show lineWidthsOf (_ ++ (CanvasOp.setLineWidth _ :: pts.flatMap strokeOps)) = _
    rw [lineWidthsOf_append, hw, lineWidthsOf_flatMap_strokeOps]
    rfl
  · show strokeCmdCount (_ ++ (CanvasOp.setLineWidth _ :: pts.flatMap strokeOps)) = _
    rw [strokeCmdCount_append, hs, strokeCmdCount_flatMap_strokeOps]
    rw [show strokeCmdCount [CanvasOp.setFillStyle "#FFFFFF", CanvasOp.setStrokeStyle "#FFFFFF",
      CanvasOp.setLineCap "round", CanvasOp.setLineJoin "round"] = 0 from rfl, Nat.zero_add]
  · show strokeCmdCount (_ ++ (CanvasOp.setLineWidth _ :: pts.flatMap strokeOps)) = _
    rw [strokeCmdCount_append, hs, strokeCmdCount_flatMap_strokeOps]
    rw [show strokeCmdCount [CanvasOp.setFillStyle "#FFFFFF", CanvasOp.setStrokeStyle "#FFFFFF",
      CanvasOp.setLineCap "round", CanvasOp.setLineJoin "round"] = 0 from rfl, Nat.zero_add]

/-- Claim C1: for every wheel-zoom event, the new camera scale equals the old
scale multiplied by exp(-sign(deltaY) * 0.15) clamped to [0.05, 20], and the
new translate is chosen so that the world point under the pointer before the
zoom maps to the same screen position after the zoom; in particular, for
deltaY < 0 at viewport point (100, 100) with scale 1 and translate (0, 0),
the result is scale exp(0.15) and translate
(100 - 100 * exp(0.15), 100 - 100 * exp(0.15)). -/
theorem handleWheel_zoom_spec :
    (∀ (rl rt cx cy dy : ℝ) (t : Transform),
      (handleWheel rl rt cx cy dy t).scale =
        min (max (t.scale * Real.exp (-jsSign dy * ZOOM_SPEED)) 0.05) 20 ∧
      ((cx - rl - t.x) / t.scale) * (handleWheel rl rt cx cy dy t).scale
          + (handleWheel rl rt cx cy dy t).x = cx - rl ∧
      ((cy - rt - t.y) / t.scale) * (handleWheel rl rt cx cy dy t).scale
          + (handleWheel rl rt cx cy dy t).y = cy - rt) ∧
    handleWheel 0 0 100 100 (-3) (Transform.mk 0 0 1) =
      Transform.mk (100 - 100 * Real.exp 0.15) (100 - 100 * Real.exp 0.15)
        (Real.exp 0.15) := by
  constructor
  · intro rl rt cx cy dy t
    have hsc : (handleWheel rl rt cx cy dy t).scale =
        min (max (t.scale * Real.exp (-jsSign dy * ZOOM_SPEED)) 0.05) 20 := rfl
    have hx : (handleWheel rl rt cx cy dy t).x =
        (cx - rl) - ((cx - rl) - t.x) / t.scale *
          min (max (t.scale * Real.exp (-jsSign dy * ZOOM_SPEED)) 0.05) 20 := rfl
    have hy : (handleWheel rl rt cx cy dy t).y =
        (cy - rt) - ((cy - rt) - t.y) / t.scale *
          min (max (t.scale * Real.exp (-jsSign dy * ZOOM_SPEED)) 0.05) 20 := rfl
    refine ⟨rfl, ?_, ?_⟩
    · rw [hsc, hx]
      ring
    · rw [hsc, hy]
      ring
  · have hsgn : jsSign (-3 : ℝ) = -1 := by
      norm_num [jsSign]
    have harg : -jsSign (-3 : ℝ) * ZOOM_SPEED = (0.15 : ℝ) := by
      rw [hsgn]
      norm_num [ZOOM_SPEED]
    have hge : (0.05 : ℝ) ≤ Real.exp 0.15 := by
      have h1 : (0.15 : ℝ) + 1 ≤ Real.exp 0.15 := Real.add_one_le_exp (0.15 : ℝ)
      linarith
    have hle : Real.exp 0.15 ≤ 20 := by
      have h1 : Real.exp (0.15 : ℝ) < Real.exp 1 := Real.exp_lt_exp.mpr (by norm_num)
      have h2 : Real.exp (1 : ℝ) < 2.7182818286 := Real.exp_one_lt_d9
      linarith
    have hclamp : min (max ((Transform.mk 0 0 1).scale *
        Real.exp (-jsSign (-3 : ℝ) * ZOOM_SPEED)) 0.05) 20 = Real.exp 0.15 := by
      rw [harg]
      show min (max (1 * Real.exp 0.15) 0.05) 20 = Real.exp 0.15
      rw [one_mul, max_eq_left hge, min_eq_left hle]
    show Transform.mk _ _ _ = _
    rw [show ((100 : ℝ) - 0 - ((100 - 0 - (Transform.mk 0 0 1).x) /
        (Transform.mk 0 0 1).scale) * min (max ((Transform.mk 0 0 1).scale *
          Real.exp (-jsSign (-3 : ℝ) * ZOOM_SPEED)) 0.05) 20) =
        100 - 100 * Real.exp 0.15 by rw [hclamp]; norm_num]
    rw [hclamp]

/-- Claim C2: on a pointer-move processed with at least two active pointers
and a positive baseline mean distance, the new camera scale equals the
baseline scale multiplied by (current mean pointer distance from centroid /
baseline mean distance), clamped to [0.05, 20]; and the gesture baseline is
recomputed from scratch (from the new pointer set and the current transform)
on every pointer-down and pointer-up/cancel/leave, i.e. whenever the pointer
set's cardinality changes. -/
theorem pinch_scale_and_baseline_spec :
    (∀ (env : Env) (pid : ℕ) (cx cy : ℝ) (s : VState) (g : Gesture),
      s.gestureStart = some g →
      hasPtr s.pointers pid = true →
      2 ≤ (setPtr s.pointers pid (Pt.mk cx cy)).length →
      0 < g.distance →
      (handlePointerMove env pid cx cy s).transform.scale =
        min (max (g.transform.scale *
          ((getCentroid (ptrValues (setPtr s.pointers pid (Pt.mk cx cy)))).distance /
            g.distance)) 0.05) 20) ∧
    (∀ (env : Env) (now : ℝ) (pid : ℕ) (cx cy : ℝ) (s : VState),
      (handlePointerDown env now pid cx cy s).gestureStart =
        updateGestureStart (setPtr s.pointers pid (Pt.mk cx cy)) s.transform) ∧
    (∀ (pid : ℕ) (s : VState),
      (handlePointerUp pid s).gestureStart =
        updateGestureStart (delPtr s.pointers pid) s.transform) := by
  refine ⟨?_, ?_, ?_⟩
  · intro env pid cx cy s g hg hhas hlen hdist
    have hne : ¬((setPtr s.pointers pid (Pt.mk cx cy)).length = 1 ∧
        s.maskType ≠ MaskType.HAND) := by
      rintro ⟨h1, -⟩
      omega
    have hcond : 1 < (setPtr s.pointers pid (Pt.mk cx cy)).length ∧ 0 < g.distance :=
      ⟨by omega, hdist⟩
    simp only [handlePointerMove, hhas, if_true, hg, if_neg hne, if_pos hcond]
  · intro env now pid cx cy s
    by_cases hl : (setPtr s.pointers pid (Pt.mk cx cy)).length = 1 <;>
      simp [handlePointerDown, hl]
  · intro pid s
    rfl

/-- Claim C2, witness: the pinch-scale formula applied to a concrete
two-pointer state with baseline distance 5. -/
theorem pinch_scale_and_baseline_spec_witness :
    c2State.gestureStart =
      some { transform := Transform.mk 0 0 1, center := Pt.mk 3 4, distance := 5 } ∧
    hasPtr c2State.pointers 1 = true ∧
    2 ≤ (setPtr c2State.pointers 1 (Pt.mk 0 0)).length ∧
    (0 : ℝ) < 5 ∧
    (handlePointerMove c2Env 1 0 0 c2State).transform.scale =
      min (max ((1 : ℝ) *
        ((getCentroid (ptrValues (setPtr c2State.pointers 1 (Pt.mk 0 0)))).distance /
          5)) 0.05) 20 := by
  refine ⟨rfl, rfl, by decide, by norm_num, ?_⟩
  exact pinch_scale_and_baseline_spec.1 c2Env 1 0 0 c2State
    { transform := Transform.mk 0 0 1, center := Pt.mk 3 4, distance := 5 }
    rfl rfl (by decide) (by norm_num)

/-- Claim C10: on a pinch move whose gesture baseline has mean pointer
distance exactly 0, the scale is not derived from the distance ratio (no
division by the zero baseline distance): the new scale is the baseline scale,
clamped to [0.05, 20]. -/
theorem pinch_zero_distance_safe :
    ∀ (env : Env) (pid : ℕ) (cx cy : ℝ) (s : VState) (g : Gesture),
      s.gestureStart = some g →
      hasPtr s.pointers pid = true →
      2 ≤ (setPtr s.pointers pid (Pt.mk cx cy)).length →
      g.distance = 0 →
      (handlePointerMove env pid cx cy s).transform.scale =
        min (max g.transform.scale 0.05) 20 := by
  intro env pid cx cy s g hg hhas hlen hdist
  have hne : ¬((setPtr s.pointers pid (Pt.mk cx cy)).length = 1 ∧
      s.maskType ≠ MaskType.HAND) := by
    rintro ⟨h1, -⟩
    omega
  have hcond : ¬(1 < (setPtr s.pointers pid (Pt.mk cx cy)).length ∧ 0 < g.distance) := by
    rintro ⟨-, h2⟩
    rw [hdist] at h2
    exact lt_irrefl 0 h2
  simp only [handlePointerMove, hhas, if_true, hg, if_neg hne, if_neg hcond]

/-- Claim C10, witness: two coincident pointers, baseline distance 0. -/
theorem pinch_zero_distance_safe_witness :
    c10State.gestureStart =
      some { transform := Transform.mk 0 0 1, center := Pt.mk 3 4, distance := 0 } ∧
    hasPtr c10State.pointers 1 = true ∧
    2 ≤ (setPtr c10State.pointers 1 (Pt.mk 3 4)).length ∧
    (handlePointerMove c10Env 1 3 4 c10State).transform.scale =
      min (max 1 0.05) 20 := by
  refine ⟨rfl, rfl, by decide, ?_⟩
  exact pinch_zero_distance_safe c10Env 1 3 4 c10State
    { transform := Transform.mk 0 0 1, center := Pt.mk 3 4, distance := 0 }
    rfl rfl (by decide) rfl

/-- Claim C3, counterexample: not every transform-producing operation leaves
the scale in [0.05, 20].  Fit-to-screen (centerImage) has no lower clamp and
yields scale 0.00976 for a 100000 px wide image in a 1024 x 768 window; the
upscale path divides the scale by the ratio without clamping (0.1 / 4 =
0.025); and the zoom-in button only clamps above, so from scale 0.01 it
yields 0.0125. -/
theorem scale_clamp_counterexample :
    (centerImage 1024 768 100000 100).scale < 0.05 ∧
    (upscaleTransform 4 (Transform.mk 0 0 0.1)).scale < 0.05 ∧
    (handleZoomIn (Transform.mk 0 0 0.01)).scale < 0.05 := by
  refine ⟨?_, ?_, ?_⟩
  · show min (((1024 : ℝ) - 48) / 100000) (min (((768 : ℝ) - 140) / 100) 1) < 0.05
    rw [min_eq_right (by norm_num : (1 : ℝ) ≤ (768 - 140) / 100),
      min_eq_left (by norm_num : ((1024 : ℝ) - 48) / 100000 ≤ 1)]
    norm_num
  · show (0.1 : ℝ) / 4 < 0.05
    norm_num
  · show min ((0.01 : ℝ) * 1.25) 20 < 0.05
    rw [min_eq_left (by norm_num : (0.01 : ℝ) * 1.25 ≤ 20)]
    norm_num

/-- Claim C3, amended: the resulting camera scale lies in [0.05, 20] after
every wheel zoom, after every pinch move that recomputes the transform, and
after a double-tap zoom-to-100%; the zoom-in and zoom-out buttons keep the
scale in [0.05, 20] whenever it already lies in that range (each clamps only
one side); center-view leaves the scale unchanged; fit-to-screen and the
upscale path's camera-scale adjustment do not clamp, and can produce a scale
outside [0.05, 20]. -/
theorem scale_clamp_amended :
    (∀ (rl rt cx cy dy : ℝ) (t : Transform),
      0.05 ≤ (handleWheel rl rt cx cy dy t).scale ∧
      (handleWheel rl rt cx cy dy t).scale ≤ 20) ∧
    (∀ (env : Env) (pid : ℕ) (cx cy : ℝ) (s : VState) (g : Gesture),
      s.gestureStart = some g →
      hasPtr s.pointers pid = true →
      ¬((setPtr s.pointers pid (Pt.mk cx cy)).length = 1 ∧
        s.maskType ≠ MaskType.HAND) →
      0.05 ≤ (handlePointerMove env pid cx cy s).transform.scale ∧
      (handlePointerMove env pid cx cy s).transform.scale ≤ 20) ∧
    (∀ (env : Env) (now : ℝ) (pid : ℕ) (cx cy : ℝ) (s : VState),
      (setPtr s.pointers pid (Pt.mk cx cy)).length = 1 →
      now - s.lastTap < 300 →
      s.transform.scale < 1 →
      (handlePointerDown env now pid cx cy s).transform.scale = 1) ∧
    (∀ t : Transform, 0.05 ≤ t.scale → t.scale ≤ 20 →
      0.05 ≤ (handleZoomIn t).scale ∧ (handleZoomIn t).scale ≤ 20) ∧
    (∀ t : Transform, 0.05 ≤ t.scale → t.scale ≤ 20 →
      0.05 ≤ (handleZoomOut t).scale ∧ (handleZoomOut t).scale ≤ 20) ∧
    (∀ (winW winH cw ch : ℝ) (t : Transform),
      (handleCenterView winW winH cw ch t).scale = t.scale) := by
  refine ⟨?_, ?_, ?_, ?_, ?_, fun winW winH cw ch t => rfl⟩
  · intro rl rt cx cy dy t
    exact ⟨le_min (le_max_right _ _) (by norm_num), min_le_right _ _⟩
  · intro env pid cx cy s g hg hhas hne
    have h : (handlePointerMove env pid cx cy s).transform.scale =
        min (max (if 1 < (setPtr s.pointers pid (Pt.mk cx cy)).length ∧ 0 < g.distance then
            g.transform.scale *
              ((getCentroid (ptrValues (setPtr s.pointers pid (Pt.mk cx cy)))).distance /
                g.distance)
          else g.transform.scale) 0.05) 20 := by
      simp only [handlePointerMove, hhas, if_true, hg, if_neg hne]
    rw [h]
    exact ⟨le_min (le_max_right _ _) (by norm_num), min_le_right _ _⟩
  · intro env now pid cx cy s hl htap hsc
    simp [handlePointerDown, hl, htap, hsc]
  · intro t h1 h2
    refine ⟨le_min (by linarith) (by norm_num), min_le_right _ _⟩
  · intro t h1 h2
    refine ⟨le_max_right _ _, max_le (by linarith) (by norm_num)⟩

/-- Claim C3, witness: the zoom-in button applied at scale 1. -/
theorem scale_clamp_amended_witness :
    (0.05 : ℝ) ≤ (Transform.mk 0 0 1).scale ∧ (Transform.mk 0 0 1).scale ≤ 20 ∧
    (0.05 ≤ (handleZoomIn (Transform.mk 0 0 1)).scale ∧
      (handleZoomIn (Transform.mk 0 0 1)).scale ≤ 20) := by
  refine ⟨by norm_num, by norm_num, ?_⟩
  exact scale_clamp_amended.2.2.2.1 (Transform.mk 0 0 1) (by norm_num) (by norm_num)

/-- Claim C9: the compositor reads no state other than its inputs — every
render starts from a cleared buffer, so for any two prior contents of the
main canvas, rendering with identical (width, height, foreground, background,
maskConfig) produces identical pixels everywhere on the canvas; in
particular, rendering twice with identical inputs yields identical pixel
buffers (no accumulation of prior frames' artifacts). -/
theorem renderEffect_deterministic :
    ∀ (raster : List CanvasOp → ℕ → ℕ → ℝ) (w h : ℕ) (fg bg : Option Img)
      (cfg : MaskConfig) (p1 p2 : Buffer) (x y : ℕ),
      x < w → y < h →
      renderEffect raster w h fg bg cfg p1 x y =
        renderEffect raster w h fg bg cfg p2 x y := by
  intro raster w h fg bg cfg p1 p2 x y hx hy
  have hcl : ∀ b : Buffer, clearRectB w h b x y = clearPix := by
    intro b
    simp [clearRectB, hx, hy]
  have hbg : drawBg w h bg (clearRectB w h p1) x y =
      drawBg w h bg (clearRectB w h p2) x y := by
    cases bg with
    | none => simp [drawBg, hx, hy]
    | some img => simp [drawBg, hx, hy, hcl]
  cases fg with
  | none => simpa [renderEffect] using hbg
  | some f => simp [renderEffect, hx, hy, hbg]

/-- Claim C9, witness: the theorem applied at a 1 x 1 canvas with two
different prior buffers. -/
theorem renderEffect_deterministic_witness :
    0 < 1 ∧
    renderEffect (fun _ _ _ => 0) 1 1 none none DEFAULT_MASK_CONFIG
        (fun _ _ => clearPix) 0 0 =
      renderEffect (fun _ _ _ => 0) 1 1 none none DEFAULT_MASK_CONFIG
        (fun _ _ => slate800) 0 0 := by
  refine ⟨by norm_num, ?_⟩
  exact renderEffect_deterministic (fun _ _ _ => 0) 1 1 none none DEFAULT_MASK_CONFIG
    (fun _ _ => clearPix) (fun _ _ => slate800) 0 0 (by norm_num) (by norm_num)

end MaskImage
